import Mathlib

/-!
Shallow embedding of the Nepal Sales voucher-numbering route
(`src/app/api/nepal/sale/route.ts`, the live uncommented implementation):
the voucher-number formatter, the counter store and idempotency ledger,
candidate allocation (`getCandidateNumber`), the commit transaction
(`commitNumber`), and the per-item / per-batch handler (`POST` loop).
The external cloud API is a parameter (`Cloud`): a function from the wire
payload to either a thrown transport error or a parsed response envelope.
-/

set_option autoImplicit false

namespace TallyHelper

/-- JS truthiness test for an optional string field:
`undefined`, `null` and `""` are falsy (`if (!idempotencyKey)`). -/
def jsFalsy : Option String → Bool
  | none => true
  | some s => s == ""

/-- JS `o || d` on an optional string field: the default applies when the
field is absent or the empty string (`item.region || "nepal"`). -/
def jsOr (o : Option String) (d : String) : String :=
  match o with
  | none => d
  | some s => if s == "" then d else s

/-- JS `String.prototype.padStart(w, c)`: left-pad to a minimum width `w`
with the fill character; a string already at least `w` long is returned
unchanged. -/
def padStart (s : String) (w : Nat) (c : Char) : String :=
  String.mk (List.replicate (w - s.length) c) ++ s

/-- `formatVoucherNo` from the route:
`AQNS/` followed by `n.toString().padStart(n >= 1000 ? 4 : 3, "0")`. -/
def formatVoucherNo (n : Nat) : String :=
  "AQNS/" ++ padStart (toString n) (if n ≥ 1000 then 4 else 3) '0'

/-- One row of `dbo.VoucherCounters` (all rows in play have `FiscalYear`
empty or NULL, the bucket every query in the route matches). -/
structure CounterRow where
  region : String
  voucherType : String
  currentNo : Nat
deriving Repr, DecidableEq

/-- One row of `dbo.VoucherIdempotency`. -/
structure LedgerRow where
  idempotencyKey : String
  region : String
  voucherType : String
  voucherNo : String
deriving Repr, DecidableEq

/-- The database state touched by the route: the counter table and the
idempotency ledger. -/
structure DBState where
  counters : List CounterRow
  ledger : List LedgerRow
deriving Repr, DecidableEq

deriving instance DecidableEq for Except

/-- The `WHERE Region=@region AND VoucherType=@type AND (FiscalYear = '' OR
FiscalYear IS NULL)` predicate of the counter queries. -/
def counterMatches (region voucherType : String) (c : CounterRow) : Bool :=
  c.region == region && c.voucherType == voucherType

/-- `SELECT CurrentNo FROM dbo.VoucherCounters WHERE ...` for a key. -/
def counterFind (db : DBState) (region voucherType : String) : Option Nat :=
  (db.counters.find? (counterMatches region voucherType)).map CounterRow.currentNo

/-- The effective counter value as the handler reads it:
`r.recordset[0]?.CurrentNo || 0` (missing row reads as 0). -/
def currentNo (db : DBState) (region voucherType : String) : Nat :=
  (counterFind db region voucherType).getD 0

/-- `SELECT VoucherNo FROM dbo.VoucherIdempotency WHERE IdempotencyKey=@key`. -/
def ledgerLookup (db : DBState) (key : String) : Option String :=
  (db.ledger.find? (fun l => l.idempotencyKey == key)).map LedgerRow.voucherNo

/-- The transient result of `getCandidateNumber`: `{ next, formatted }`. -/
structure Candidate where
  next : Nat
  formatted : String
deriving Repr, DecidableEq

/-- `getCandidateNumber` from the route: ensure the counter row exists
(`IF NOT EXISTS ... INSERT ... VALUES (@region, @type, '', 0)`), read
`CurrentNo` (`|| 0`), and return `next = current + 1` with its formatted
string. Returns the (possibly row-extended) database and the candidate. -/
def getCandidateNumber (db : DBState) (region voucherType : String) :
    DBState × Candidate :=
  let db1 : DBState :=
    if (db.counters.find? (counterMatches region voucherType)).isSome then db
    else { db with counters := db.counters ++ [⟨region, voucherType, 0⟩] }
  let current := (counterFind db1 region voucherType).getD 0
  let next := current + 1
  ⟨db1, ⟨next, formatVoucherNo next⟩⟩

/-- `commitNumber` from the route, as one atomic transaction:
`UPDATE dbo.VoucherCounters SET CurrentNo = @next WHERE ...`; if
`rowsAffected[0] === 0` throw the CRITICAL error (rolling back, so the
error case returns no state); otherwise
`INSERT INTO dbo.VoucherIdempotency ...` and commit. -/
def commitNumber (db : DBState) (region voucherType : String) (next : Nat)
    (idempotencyKey voucherNo : String) : Except String DBState :=
  if (db.counters.filter (counterMatches region voucherType)).length = 0 then
    Except.error ("CRITICAL: Failed to update voucher counter. Region: "
      ++ region ++ ", Type: " ++ voucherType)
  else
    Except.ok
      { counters := db.counters.map (fun c =>
          if counterMatches region voucherType c then
            { c with currentNo := next } else c),
        ledger := db.ledger ++ [⟨idempotencyKey, region, voucherType, voucherNo⟩] }

/-- A scalar as it appears in the cloud response JSON: the route compares
`statuscode` against both the string `"101"` and the number `101`. -/
inductive JsonScalar where
  | str (s : String)
  | num (n : Int)
deriving Repr, DecidableEq

/-- The parts of the cloud response envelope the route inspects:
whether `resp.data` is an array, and `resp.data[0]?.statuscode` /
`resp.data[0]?.statusmessage` when present. -/
structure CloudResponse where
  dataIsArray : Bool
  statuscode : Option JsonScalar
  statusmessage : Option String
deriving Repr, DecidableEq

/-- The route's acceptance test: `Array.isArray(resp?.data) &&
(resp.data[0]?.statuscode === "101" || resp.data[0]?.statuscode === 101)`. -/
def respOk (r : CloudResponse) : Bool :=
  r.dataIsArray &&
    (r.statuscode == some (JsonScalar.str "101")
      || r.statuscode == some (JsonScalar.num 101))

/-- One input item of the request body `{ data: [...] }`: the three routing
fields the route reads (`idempotencyKey`, `region`, `vouchertype`, each
possibly absent) plus the open bag of remaining business fields. -/
structure Item where
  idempotencyKey : Option String
  region : Option String
  vouchertype : Option String
  business : List (String × String)
deriving Repr, DecidableEq

/-- The wire payload built by
`const { idempotencyKey: _k2, region: _r2, ...clean } = item;
const payload = { ...clean, voucherno };` — the rest-spread keeps every
field of the item except `idempotencyKey` and `region` (so `vouchertype`
stays), and adds the assigned `voucherno`. -/
structure Payload where
  vouchertype : Option String
  business : List (String × String)
  voucherno : String
deriving Repr, DecidableEq

/-- Builds the payload sent to the cloud for an item and assigned number. -/
def mkPayload (item : Item) (voucherno : String) : Payload :=
  ⟨item.vouchertype, item.business, voucherno⟩

/-- The external cloud call: `axios.post` either throws (transport error,
carrying `err.message`) or yields a parsed response envelope. -/
abbrev Cloud := Payload → Except String CloudResponse

/-- One element of the route's `results` array. -/
structure SubmissionResult where
  idempotencyKey : String
  ok : Bool
  voucherno : Option String
  message : Option String
deriving Repr, DecidableEq

/-- `item.region || "nepal"`. -/
def effRegion (item : Item) : String := jsOr item.region "nepal"

/-- `item.vouchertype || "Sales"`. -/
def effVoucherType (item : Item) : String := jsOr item.vouchertype "Sales"

/-- The idempotency key the handler works with once the falsiness check
has passed. -/
def itemKey (item : Item) : String := item.idempotencyKey.getD ""

/-- The payload the handler would post for an item given the database it
draws its candidate from. -/
def sentPayload (db : DBState) (item : Item) : Payload :=
  mkPayload item
    (getCandidateNumber db (effRegion item) (effVoucherType item)).2.formatted

/-- One iteration of the `for (const item of data)` loop of `POST`:
missing-key fast failure; ledger lookup with reuse; otherwise candidate
draw, cloud call, acceptance check, and commit; every thrown error is
caught and becomes a failed result with `err?.message || "failed"`. -/
def processItem (cloud : Cloud) (db : DBState) (item : Item) :
    DBState × SubmissionResult :=
  if jsFalsy item.idempotencyKey then
    ⟨db, ⟨"(missing)", false, none, some "idempotencyKey required"⟩⟩
  else
    let key := itemKey item
    match ledgerLookup db key with
    | some reused => ⟨db, ⟨key, true, some reused, none⟩⟩
    | none =>
      let rc := getCandidateNumber db (effRegion item) (effVoucherType item)
      let voucherno := rc.2.formatted
      match cloud (mkPayload item voucherno) with
      | Except.error m => ⟨rc.1, ⟨key, false, none, some (jsOr (some m) "failed")⟩⟩
      | Except.ok resp =>
        if respOk resp then
          match commitNumber rc.1 (effRegion item) (effVoucherType item)
              rc.2.next key voucherno with
          | Except.ok db2 => ⟨db2, ⟨key, true, some voucherno, none⟩⟩
          | Except.error m =>
            ⟨rc.1, ⟨key, false, none, some (jsOr (some m) "failed")⟩⟩
        else
          ⟨rc.1, ⟨key, false, none,
            some (jsOr (some (jsOr resp.statusmessage "Cloud rejected")) "failed")⟩⟩

/-- The whole `for` loop of `POST`: sequential, threading the database,
one result per item in input order. -/
def processBatch (cloud : Cloud) (db : DBState) :
    List Item → DBState × List SubmissionResult
  | [] => ⟨db, []⟩
  | item :: rest =>
    let r := processItem cloud db item
    let rs := processBatch cloud r.1 rest
    ⟨rs.1, r.2 :: rs.2⟩

/-- An external outcome the route treats as rejection: a thrown transport
error, or a response failing the `statuscode` acceptance test. -/
def cloudRejects : Except String CloudResponse → Bool
  | Except.error _ => true
  | Except.ok r => !respOk r

/-- An external outcome the route treats as acceptance. -/
def cloudAccepts : Except String CloudResponse → Bool
  | Except.error _ => false
  | Except.ok r => respOk r

/-- First step of an interleaving of two concurrent `POST` requests for the
key `("nepal", "Sales")` against an empty database: session 1 runs
`getCandidateNumber`. The live route takes no `sp_getapplock` between the
ledger check and the commit, so nothing prevents the second session's read
from landing before the first session's commit. -/
def race1 : DBState × Candidate := getCandidateNumber ⟨[], []⟩ "nepal" "Sales"

/-- Second step of the interleaving: session 2 runs `getCandidateNumber`
before session 1 has committed. -/
def race2 : DBState × Candidate := getCandidateNumber race1.1 "nepal" "Sales"

/-- Third step: session 1's cloud call is accepted and it commits its
candidate under key `K1`. -/
def raceCommit1 : Except String DBState :=
  commitNumber race2.1 "nepal" "Sales" race1.2.next "K1" race1.2.formatted

/-- Fourth step: session 2's cloud call is accepted and it commits its
candidate under key `K2`. -/
def raceCommit2 : Except String DBState :=
  match raceCommit1 with
  | Except.ok d => commitNumber d "nepal" "Sales" race2.2.next "K2" race2.2.formatted
  | Except.error e => Except.error e

/-- A concrete empty database: no counter rows, no ledger rows. -/
def db0 : DBState := ⟨[], []⟩

/-- A concrete input item: key `K1`, no `region`, no `vouchertype`, one
business field. -/
def item1 : Item := ⟨some "K1", none, none, [("amount", "100")]⟩

/-- A concrete input item carrying all three routing fields. -/
def itemVt : Item := ⟨some "K1", some "nepal", some "Sales", [("amount", "100")]⟩

/-- A cloud stub that always throws a transport error. -/
def cloudDown : Cloud := fun _ => Except.error "ECONNRESET"

/-- A cloud stub that always accepts with statuscode `"101"`. -/
def cloudUp : Cloud := fun _ =>
  Except.ok ⟨true, some (JsonScalar.str "101"), some "Created"⟩

/-- A cloud stub that accepts like `cloudUp` except on payloads whose
assigned number is the sentinel `NOPE`; it agrees with `cloudUp` on every
payload the handler actually sends in the witnesses. -/
def cloudUp2 : Cloud := fun p =>
  if p.voucherno == "NOPE" then Except.error "boom"
  else Except.ok ⟨true, some (JsonScalar.str "101"), some "Created"⟩

/-- A cloud stub that always answers with a rejecting statuscode. -/
def cloudNo : Cloud := fun _ =>
  Except.ok ⟨true, some (JsonScalar.str "400"), some "Invalid voucher"⟩

section ListLemmas

theorem find?_append_of_none {α : Type} (p : α → Bool) (l₁ l₂ : List α)
    (h : l₁.find? p = none) : (l₁ ++ l₂).find? p = l₂.find? p := by
  induction l₁ with
  | nil => rfl
  | cons a l ih =>
    rw [List.cons_append]
    cases hpa : p a with
    | true =>
      rw [List.find?_cons_of_pos _ hpa] at h
      exact absurd h (by simp)
    | false =>
      rw [List.find?_cons_of_neg _ (by simp [hpa])] at h
      rw [List.find?_cons_of_neg _ (by simp [hpa])]
      exact ih h

theorem find?_map_congr {α : Type} (p : α → Bool) (f : α → α) (l : List α)
    (hf : ∀ a, p (f a) = p a) : (l.map f).find? p = (l.find? p).map f := by
  induction l with
  | nil => rfl
  | cons a l ih =>
    rw [List.map_cons]
    cases hpa : p a with
    | true =>
      rw [List.find?_cons_of_pos _ (by rw [hf a]; exact hpa),
        List.find?_cons_of_pos _ hpa]
      rfl
    | false =>
      rw [List.find?_cons_of_neg _ (by simp [hf a, hpa]),
        List.find?_cons_of_neg _ (by simp [hpa])]
      exact ih

end ListLemmas

section AllocatorLemmas

theorem counterMatches_self (r t : String) (n : Nat) :
    counterMatches r t ⟨r, t, n⟩ = true := by
  simp [counterMatches]

theorem getCandidateNumber_ledger (db : DBState) (r t : String) :
    (getCandidateNumber db r t).1.ledger = db.ledger := by
  unfold getCandidateNumber
  dsimp only
  split <;> rfl

theorem getCandidateNumber_next (db : DBState) (r t : String) :
    (getCandidateNumber db r t).2.next = currentNo db r t + 1 := by
  unfold getCandidateNumber
  cases hfind : db.counters.find? (counterMatches r t) with
  | some c => simp [hfind, currentNo, counterFind]
  | none =>
    have h2 : ((db.counters ++ [⟨r, t, 0⟩] : List CounterRow).find?
        (counterMatches r t)) = some ⟨r, t, 0⟩ := by
      rw [find?_append_of_none _ _ _ hfind]
      simp [List.find?, counterMatches_self]
    simp [hfind, currentNo, counterFind, h2]

theorem getCandidateNumber_formatted (db : DBState) (r t : String) :
    (getCandidateNumber db r t).2.formatted
      = formatVoucherNo (currentNo db r t + 1) := by
  unfold getCandidateNumber
  cases hfind : db.counters.find? (counterMatches r t) with
  | some c => simp [hfind, currentNo, counterFind]
  | none =>
    have h2 : ((db.counters ++ [⟨r, t, 0⟩] : List CounterRow).find?
        (counterMatches r t)) = some ⟨r, t, 0⟩ := by
      rw [find?_append_of_none _ _ _ hfind]
      simp [List.find?, counterMatches_self]
    simp [hfind, currentNo, counterFind, h2]

theorem getCandidateNumber_currentNo (db : DBState) (r t : String) :
    currentNo (getCandidateNumber db r t).1 r t = currentNo db r t := by
  unfold getCandidateNumber
  cases hfind : db.counters.find? (counterMatches r t) with
  | some c => simp [hfind]
  | none =>
    have h2 : ((db.counters ++ [⟨r, t, 0⟩] : List CounterRow).find?
        (counterMatches r t)) = some ⟨r, t, 0⟩ := by
      rw [find?_append_of_none _ _ _ hfind]
      simp [List.find?, counterMatches_self]
    simp [hfind, currentNo, counterFind, h2]

theorem getCandidateNumber_row_exists (db : DBState) (r t : String) :
    ((getCandidateNumber db r t).1.counters.find? (counterMatches r t)).isSome
      = true := by
  unfold getCandidateNumber
  cases hfind : db.counters.find? (counterMatches r t) with
  | some c => simp [hfind]
  | none =>
    have h2 : ((db.counters ++ [⟨r, t, 0⟩] : List CounterRow).find?
        (counterMatches r t)) = some ⟨r, t, 0⟩ := by
      rw [find?_append_of_none _ _ _ hfind]
      simp [List.find?, counterMatches_self]
    simp [hfind, h2]

end AllocatorLemmas

section CommitLemmas

theorem counterMatches_update (r t : String) (n : Nat) (c : CounterRow) :
    counterMatches r t
        (if counterMatches r t c then { c with currentNo := n } else c)
      = counterMatches r t c := by
  by_cases hc : counterMatches r t c = true
  · rw [if_pos hc]
    simp [counterMatches]
  · rw [if_neg hc]

theorem commitNumber_ok_of_row_exists (db : DBState) (r t : String) (n : Nat)
    (k v : String)
    (h : (db.counters.find? (counterMatches r t)).isSome = true) :
    commitNumber db r t n k v = Except.ok
      ⟨db.counters.map (fun c => if counterMatches r t c then
          { c with currentNo := n } else c),
        db.ledger ++ [⟨k, r, t, v⟩]⟩ := by
  obtain ⟨c, hmem, hpc⟩ := List.find?_isSome.mp h
  unfold commitNumber
  rw [if_neg]
  intro hlen
  have hmemf : c ∈ db.counters.filter (counterMatches r t) :=
    List.mem_filter.mpr ⟨hmem, hpc⟩
  rw [List.length_eq_zero.mp hlen] at hmemf
  exact absurd hmemf (List.not_mem_nil c)

theorem commitNumber_ok_inv (db : DBState) (r t : String) (n : Nat)
    (k v : String) (db2 : DBState)
    (h : commitNumber db r t n k v = Except.ok db2) :
    currentNo db2 r t = n ∧ db2.ledger = db.ledger ++ [⟨k, r, t, v⟩] := by
  unfold commitNumber at h
  by_cases h0 : (db.counters.filter (counterMatches r t)).length = 0
  · rw [if_pos h0] at h
    exact absurd h (by simp)
  · rw [if_neg h0] at h
    have hne : db.counters.filter (counterMatches r t) ≠ [] := by
      intro hnil
      exact h0 (by rw [hnil]; rfl)
    obtain ⟨x, hx⟩ := List.exists_mem_of_ne_nil _ hne
    obtain ⟨hxm, hxp⟩ := List.mem_filter.mp hx
    have hsome : (db.counters.find? (counterMatches r t)).isSome :=
      List.find?_isSome.mpr ⟨x, hxm, hxp⟩
    obtain ⟨c, hc⟩ := Option.isSome_iff_exists.mp hsome
    have hpc := List.find?_some hc
    have hdb2 : db2 = ⟨db.counters.map (fun c => if counterMatches r t c then
        { c with currentNo := n } else c), db.ledger ++ [⟨k, r, t, v⟩]⟩ := by
      cases h
      rfl
    subst hdb2
    refine ⟨?_, rfl⟩
    unfold currentNo counterFind
    rw [find?_map_congr _ _ _ (counterMatches_update r t n), hc]
    simp [hpc]

end CommitLemmas

section HandlerLemmas

theorem processItem_reuse (cloud : Cloud) (db : DBState) (item : Item)
    (v : String) (hk : jsFalsy item.idempotencyKey = false)
    (hfound : ledgerLookup db (itemKey item) = some v) :
    processItem cloud db item = ⟨db, ⟨itemKey item, true, some v, none⟩⟩ := by
  simp only [processItem, hk, Bool.false_eq_true, if_false, hfound]

theorem processItem_alloc_error (cloud : Cloud) (db : DBState) (item : Item)
    (m : String) (hk : jsFalsy item.idempotencyKey = false)
    (hmiss : ledgerLookup db (itemKey item) = none)
    (hc : cloud (sentPayload db item) = Except.error m) :
    processItem cloud db item =
      ⟨(getCandidateNumber db (effRegion item) (effVoucherType item)).1,
        ⟨itemKey item, false, none, some (jsOr (some m) "failed")⟩⟩ := by
  simp only [sentPayload] at hc
  simp only [processItem, hk, Bool.false_eq_true, if_false, hmiss, hc]

theorem processItem_alloc_reject (cloud : Cloud) (db : DBState) (item : Item)
    (resp : CloudResponse) (hk : jsFalsy item.idempotencyKey = false)
    (hmiss : ledgerLookup db (itemKey item) = none)
    (hc : cloud (sentPayload db item) = Except.ok resp)
    (hno : respOk resp = false) :
    processItem cloud db item =
      ⟨(getCandidateNumber db (effRegion item) (effVoucherType item)).1,
        ⟨itemKey item, false, none,
          some (jsOr (some (jsOr resp.statusmessage "Cloud rejected")) "failed")⟩⟩ := by
  simp only [sentPayload] at hc
  simp only [processItem, hk, Bool.false_eq_true, if_false, hmiss, hc, hno]

theorem processItem_alloc_accept (cloud : Cloud) (db : DBState) (item : Item)
    (resp : CloudResponse) (hk : jsFalsy item.idempotencyKey = false)
    (hmiss : ledgerLookup db (itemKey item) = none)
    (hc : cloud (sentPayload db item) = Except.ok resp)
    (hyes : respOk resp = true) :
    ∃ db2 : DBState,
      commitNumber (getCandidateNumber db (effRegion item) (effVoucherType item)).1
          (effRegion item) (effVoucherType item)
          (getCandidateNumber db (effRegion item) (effVoucherType item)).2.next
          (itemKey item)
          (getCandidateNumber db (effRegion item) (effVoucherType item)).2.formatted
        = Except.ok db2 ∧
      processItem cloud db item =
        ⟨db2, ⟨itemKey item, true,
          some (getCandidateNumber db (effRegion item) (effVoucherType item)).2.formatted,
          none⟩⟩ := by
  have hcommit := commitNumber_ok_of_row_exists
    (getCandidateNumber db (effRegion item) (effVoucherType item)).1
    (effRegion item) (effVoucherType item)
    (getCandidateNumber db (effRegion item) (effVoucherType item)).2.next
    (itemKey item)
    (getCandidateNumber db (effRegion item) (effVoucherType item)).2.formatted
    (getCandidateNumber_row_exists db (effRegion item) (effVoucherType item))
  refine ⟨_, hcommit, ?_⟩
  simp only [sentPayload] at hc
  simp only [processItem, hk, Bool.false_eq_true, if_false, hmiss, hc, hyes,
    if_true, hcommit]

theorem processItem_missingKey (cloud : Cloud) (db : DBState) (item : Item)
    (h : jsFalsy item.idempotencyKey = true) :
    processItem cloud db item =
      ⟨db, ⟨"(missing)", false, none, some "idempotencyKey required"⟩⟩ := by
  unfold processItem
  rw [if_pos h]

theorem jsOr_of_falsy (o : Option String) (d : String)
    (h : jsFalsy o = true) : jsOr o d = d := by
  cases o with
  | none => rfl
  | some s =>
    simp only [jsFalsy, beq_iff_eq] at h
    simp [jsOr, h]

theorem ledgerLookup_append (db db2 : DBState) (k r t v : String)
    (hmiss : ledgerLookup db k = none)
    (hl : db2.ledger = db.ledger ++ [⟨k, r, t, v⟩]) :
    ledgerLookup db2 k = some v := by
  unfold ledgerLookup at hmiss ⊢
  have hfind : db.ledger.find? (fun x => x.idempotencyKey == k) = none := by
    cases hf : db.ledger.find? (fun x => x.idempotencyKey == k) with
    | none => rfl
    | some x => rw [hf] at hmiss; exact absurd hmiss (by simp)
  rw [hl, find?_append_of_none _ _ _ hfind]
  simp [List.find?]

end HandlerLemmas

/-- C9: the voucher number formatter is total on naturals and zero-pads the
number to a minimum of 3 digits below 1000 and 4 digits from 1000, behind
the fixed `AQNS/` prefix: the five boundary values come out as the spec
states, and the padding is a minimum width, not a maximum. -/
theorem formatVoucherNo_boundaries :
    formatVoucherNo 1 = "AQNS/001" ∧ formatVoucherNo 999 = "AQNS/999" ∧
    formatVoucherNo 1000 = "AQNS/1000" ∧ formatVoucherNo 1999 = "AQNS/1999" ∧
    formatVoucherNo 10000 = "AQNS/10000" := by decide

/-- C1: the live handler takes no lock, so the interleaving read1, read2,
commit1, commit2 of two concurrent allocation attempts for the key
`("nepal", "Sales")` is possible, and in it both sessions draw the same
candidate 1 and both commit it: the final database holds two ledger rows
with the same voucher number `AQNS/001` and a counter left at 1. -/
theorem unlocked_sessions_double_allocate :
    race1.2.next = 1 ∧ race2.2.next = 1 ∧
    race1.2.formatted = "AQNS/001" ∧ race2.2.formatted = "AQNS/001" ∧
    raceCommit2 = Except.ok ⟨[⟨"nepal", "Sales", 1⟩],
      [⟨"K1", "nepal", "Sales", "AQNS/001"⟩,
       ⟨"K2", "nepal", "Sales", "AQNS/001"⟩]⟩ := by decide

/-- C8: an item whose `idempotencyKey` is absent (or empty, which JS treats
as falsy) yields the fixed failed result immediately, with the database
untouched and the external cloud never consulted (the outcome is the same
for every `cloud`). -/
theorem missing_key_fails_fast (cloud : Cloud) (db : DBState) (item : Item)
    (h : jsFalsy item.idempotencyKey = true) :
    processItem cloud db item =
      ⟨db, ⟨"(missing)", false, none, some "idempotencyKey required"⟩⟩ := by
  unfold processItem
  rw [if_pos h]

/-- Witness for C8 at a concrete item with no key, a failing cloud and an
empty database. -/
theorem missing_key_fails_fast_witness :
    processItem (fun _ => Except.error "down") ⟨[], []⟩ ⟨none, none, none, []⟩ =
      ⟨⟨[], []⟩, ⟨"(missing)", false, none, some "idempotencyKey required"⟩⟩ :=
  missing_key_fails_fast (fun _ => Except.error "down") ⟨[], []⟩
    ⟨none, none, none, []⟩ (by decide)

/-- C4: sequential allocation is gapless: when the effective counter value
for a key is `N` at the start of an attempt, the candidate drawn is exactly
`N + 1`, and committing that candidate (which always succeeds after the
candidate step, for any idempotency key and formatted number) leaves the
counter at exactly `N + 1`. -/
theorem allocation_gapless (db : DBState) (r t : String) (N : Nat)
    (h : currentNo db r t = N) :
    (getCandidateNumber db r t).2.next = N + 1 ∧
    ∀ k v : String, ∃ db2 : DBState,
      commitNumber (getCandidateNumber db r t).1 r t
          (getCandidateNumber db r t).2.next k v = Except.ok db2 ∧
        currentNo db2 r t = N + 1 := by
  subst h
  refine ⟨getCandidateNumber_next db r t, fun k v => ?_⟩
  have hrow := getCandidateNumber_row_exists db r t
  have hcommit := commitNumber_ok_of_row_exists (getCandidateNumber db r t).1
    r t (getCandidateNumber db r t).2.next k v hrow
  refine ⟨_, hcommit, ?_⟩
  have hinv := commitNumber_ok_inv _ r t _ k v _ hcommit
  rw [hinv.1, getCandidateNumber_next]

/-- Witness for C4 on the empty database, where the counter reads 0. -/
theorem allocation_gapless_witness :
    (getCandidateNumber db0 "nepal" "Sales").2.next = 0 + 1 ∧
    ∃ db2 : DBState,
      commitNumber (getCandidateNumber db0 "nepal" "Sales").1 "nepal" "Sales"
          (getCandidateNumber db0 "nepal" "Sales").2.next "K1" "AQNS/001"
        = Except.ok db2 ∧
      currentNo db2 "nepal" "Sales" = 0 + 1 :=
  ⟨(allocation_gapless db0 "nepal" "Sales" 0 (by decide)).1,
    (allocation_gapless db0 "nepal" "Sales" 0 (by decide)).2 "K1" "AQNS/001"⟩

/-- C2: when the key is present, the ledger has no entry for it, and the
external outcome is a rejection (thrown transport error or a response
failing the acceptance test), the item's result has `ok = false`, the
effective counter value for the item's key is unchanged, and the ledger is
unchanged. -/
theorem rejection_leaves_no_trace (cloud : Cloud) (db : DBState) (item : Item)
    (hk : jsFalsy item.idempotencyKey = false)
    (hmiss : ledgerLookup db (itemKey item) = none)
    (hrej : cloudRejects (cloud (sentPayload db item)) = true) :
    (processItem cloud db item).2.ok = false ∧
    currentNo (processItem cloud db item).1 (effRegion item) (effVoucherType item)
      = currentNo db (effRegion item) (effVoucherType item) ∧
    (processItem cloud db item).1.ledger = db.ledger := by
  cases hc : cloud (sentPayload db item) with
  | error m =>
    rw [processItem_alloc_error cloud db item m hk hmiss hc]
    exact ⟨rfl, getCandidateNumber_currentNo db _ _,
      getCandidateNumber_ledger db _ _⟩
  | ok resp =>
    have hno : respOk resp = false := by
      simpa [cloudRejects, hc] using hrej
    rw [processItem_alloc_reject cloud db item resp hk hmiss hc hno]
    exact ⟨rfl, getCandidateNumber_currentNo db _ _,
      getCandidateNumber_ledger db _ _⟩

/-- Witness for C2 at a concrete item against a cloud that throws. -/
theorem rejection_leaves_no_trace_witness :
    (processItem cloudDown db0 item1).2.ok = false ∧
    currentNo (processItem cloudDown db0 item1).1 (effRegion item1)
        (effVoucherType item1)
      = currentNo db0 (effRegion item1) (effVoucherType item1) ∧
    (processItem cloudDown db0 item1).1.ledger = db0.ledger :=
  rejection_leaves_no_trace cloudDown db0 item1 (by decide) (by decide)
    (by decide)

/-- C3: once a call for an item has succeeded (whether by fresh allocation
or by reuse), resubmitting the same item against the resulting database
returns the very same result — same voucher number, `ok = true` — with the
database unchanged (counter not advanced, no new ledger row), and does so
for every cloud, i.e. the ledger lookup short-circuits before any
candidate is drawn or any external call is made. -/
theorem idempotent_resubmission (cloud : Cloud) (db db1 : DBState)
    (item : Item) (res1 : SubmissionResult)
    (hk : jsFalsy item.idempotencyKey = false)
    (h1 : processItem cloud db item = (db1, res1))
    (hok : res1.ok = true) :
    ∀ cloud2 : Cloud, processItem cloud2 db1 item = (db1, res1) := by
  intro cloud2
  cases hl : ledgerLookup db (itemKey item) with
  | some v =>
    rw [processItem_reuse cloud db item v hk hl] at h1
    cases h1
    exact processItem_reuse cloud2 db item v hk hl
  | none =>
    cases hc : cloud (sentPayload db item) with
    | error m =>
      rw [processItem_alloc_error cloud db item m hk hl hc] at h1
      cases h1
      simp at hok
    | ok resp =>
      cases hyes : respOk resp with
      | false =>
        rw [processItem_alloc_reject cloud db item resp hk hl hc hyes] at h1
        cases h1
        simp at hok
      | true =>
        obtain ⟨db2, hcommit, hproc⟩ :=
          processItem_alloc_accept cloud db item resp hk hl hc hyes
        rw [hproc] at h1
        injection h1 with hdb hres
        have hins := (commitNumber_ok_inv _ _ _ _ _ _ _ hcommit).2
        have hlook : ledgerLookup db2 (itemKey item)
            = some (getCandidateNumber db (effRegion item)
                (effVoucherType item)).2.formatted := by
          refine ledgerLookup_append db db2 (itemKey item) (effRegion item)
            (effVoucherType item) _ hl ?_
          rw [hins, getCandidateNumber_ledger]
        rw [← hdb, ← hres]
        exact processItem_reuse cloud2 db2 item _ hk hlook

/-- Witness for C3: a first successful submission against `cloudUp`, then
the same item resubmitted against a cloud that would throw; the resubmission
returns the identical pair. -/
theorem idempotent_resubmission_witness :
    processItem cloudDown (processItem cloudUp db0 item1).1 item1
      = ((processItem cloudUp db0 item1).1, (processItem cloudUp db0 item1).2) :=
  idempotent_resubmission cloudUp db0 (processItem cloudUp db0 item1).1 item1
    (processItem cloudUp db0 item1).2 (by decide) rfl (by decide) cloudDown

/-- C5 counterexample: the claim says the wire payload contains none of
`idempotencyKey`, `region`, `vouchertype`; but for a concrete item carrying
`vouchertype = "Sales"`, the payload the handler sends still contains that
field — the destructuring strips only `idempotencyKey` and `region`. -/
theorem payload_retains_vouchertype :
    (sentPayload db0 itemVt).vouchertype = some "Sales" ∧
    (sentPayload db0 itemVt).vouchertype ≠ none := by decide

/-- C5 amended: the payload posted for an item consists of the item's
business fields plus the assigned `voucherno`, with `idempotencyKey` and
`region` stripped but the item's `vouchertype` forwarded unchanged;
moreover the handler consults the cloud only at that stripped payload — two
clouds agreeing on it make the handler behave identically. -/
theorem payload_strips_key_and_region :
    (∀ (item : Item) (v : String),
      mkPayload item v = ⟨item.vouchertype, item.business, v⟩) ∧
    (∀ (cloud cloud2 : Cloud) (db : DBState) (item : Item),
      cloud (sentPayload db item) = cloud2 (sentPayload db item) →
      processItem cloud db item = processItem cloud2 db item) := by
  refine ⟨fun item v => rfl, fun cloud cloud2 db item h => ?_⟩
  by_cases hk1 : jsFalsy item.idempotencyKey = true
  · rw [processItem_missingKey cloud db item hk1,
      processItem_missingKey cloud2 db item hk1]
  · have hk : jsFalsy item.idempotencyKey = false := by
      simpa using hk1
    cases hl : ledgerLookup db (itemKey item) with
    | some v =>
      rw [processItem_reuse cloud db item v hk hl,
        processItem_reuse cloud2 db item v hk hl]
    | none =>
      cases hc : cloud (sentPayload db item) with
      | error m =>
        have hc2 : cloud2 (sentPayload db item) = Except.error m := by
          rw [← h, hc]
        rw [processItem_alloc_error cloud db item m hk hl hc,
          processItem_alloc_error cloud2 db item m hk hl hc2]
      | ok resp =>
        have hc2 : cloud2 (sentPayload db item) = Except.ok resp := by
          rw [← h, hc]
        cases hyes : respOk resp with
        | false =>
          rw [processItem_alloc_reject cloud db item resp hk hl hc hyes,
            processItem_alloc_reject cloud2 db item resp hk hl hc2 hyes]
        | true =>
          obtain ⟨db2, hcom, hp⟩ :=
            processItem_alloc_accept cloud db item resp hk hl hc hyes
          obtain ⟨db3, hcom2, hp2⟩ :=
            processItem_alloc_accept cloud2 db item resp hk hl hc2 hyes
          injection hcom.symm.trans hcom2 with e
          rw [hp, hp2, e]

/-- Witness for C5's amended theorem: `cloudUp` and `cloudUp2` differ on
payloads numbered `NOPE` but agree on the payload the handler sends for
`item1`, so the handler's outcome is identical under both. -/
theorem payload_strips_key_and_region_witness :
    mkPayload item1 "AQNS/001" = ⟨item1.vouchertype, item1.business, "AQNS/001"⟩ ∧
    processItem cloudUp db0 item1 = processItem cloudUp2 db0 item1 :=
  ⟨payload_strips_key_and_region.1 item1 "AQNS/001",
    payload_strips_key_and_region.2 cloudUp cloudUp2 db0 item1 (by decide)⟩

/-- C6: when the counter UPDATE matches no row (`rowsAffected = 0`),
`commitNumber` raises the CRITICAL error rather than silently succeeding,
and in particular never returns a committed state — so no idempotency row
is inserted by the transaction. -/
theorem commit_zero_rows_raises (db : DBState) (r t : String) (n : Nat)
    (k v : String)
    (h : (db.counters.filter (counterMatches r t)).length = 0) :
    commitNumber db r t n k v = Except.error
      ("CRITICAL: Failed to update voucher counter. Region: " ++ r
        ++ ", Type: " ++ t) ∧
    ∀ db2 : DBState, commitNumber db r t n k v ≠ Except.ok db2 := by
  have he : commitNumber db r t n k v = Except.error
      ("CRITICAL: Failed to update voucher counter. Region: " ++ r
        ++ ", Type: " ++ t) := by
    unfold commitNumber
    rw [if_pos h]
  refine ⟨he, fun db2 hok => ?_⟩
  rw [he] at hok
  simp at hok

/-- Witness for C6 on the empty database, whose counter table has no row. -/
theorem commit_zero_rows_raises_witness :
    commitNumber db0 "nepal" "Sales" 1 "K1" "AQNS/001" = Except.error
      ("CRITICAL: Failed to update voucher counter. Region: " ++ "nepal"
        ++ ", Type: " ++ "Sales") ∧
    commitNumber db0 "nepal" "Sales" 1 "K1" "AQNS/001" ≠ Except.ok db0 :=
  ⟨(commit_zero_rows_raises db0 "nepal" "Sales" 1 "K1" "AQNS/001" (by decide)).1,
    (commit_zero_rows_raises db0 "nepal" "Sales" 1 "K1" "AQNS/001" (by decide)).2 db0⟩

/-- C7: the loop returns exactly one result per input item, in input order
(head result first, then the results of the tail against the threaded
database), and a thrown external error for an item is caught and converted
into a failed result carrying the error's message rather than aborting the
batch. -/
theorem batch_one_result_per_item :
    (∀ (cloud : Cloud) (db : DBState) (items : List Item),
      (processBatch cloud db items).2.length = items.length) ∧
    (∀ (cloud : Cloud) (db : DBState) (item : Item) (rest : List Item),
      (processBatch cloud db (item :: rest)).2 =
        (processItem cloud db item).2 ::
          (processBatch cloud (processItem cloud db item).1 rest).2) ∧
    (∀ (cloud : Cloud) (db : DBState) (item : Item) (m : String),
      jsFalsy item.idempotencyKey = false →
      ledgerLookup db (itemKey item) = none →
      cloud (sentPayload db item) = Except.error m →
      (processItem cloud db item).2 =
        ⟨itemKey item, false, none, some (jsOr (some m) "failed")⟩) := by
  refine ⟨?_, ?_, ?_⟩
  · intro cloud db items
    induction items generalizing db with
    | nil => rfl
    | cons item rest ih => simp [processBatch, ih]
  · intro cloud db item rest
    rfl
  · intro cloud db item m hk hmiss hc
    rw [processItem_alloc_error cloud db item m hk hmiss hc]

/-- Witness for C7: a two-item batch against a throwing cloud yields two
results, and the failed item's result carries the transport error text. -/
theorem batch_one_result_per_item_witness :
    (processBatch cloudDown db0 [item1, itemVt]).2.length = [item1, itemVt].length ∧
    (processItem cloudDown db0 item1).2 =
      ⟨itemKey item1, false, none, some (jsOr (some "ECONNRESET") "failed")⟩ :=
  ⟨batch_one_result_per_item.1 cloudDown db0 [item1, itemVt],
    batch_one_result_per_item.2.2 cloudDown db0 item1 "ECONNRESET"
      (by decide) (by decide) (by decide)⟩

/-- C10: an item whose `region` and `vouchertype` are absent or falsy is
not rejected: the handler proceeds with the defaults `nepal` and `Sales`,
and on external acceptance the item is allocated the next number of the
`("nepal", "Sales")` counter, which is then advanced by one. -/
theorem default_region_and_vouchertype (cloud : Cloud) (db : DBState)
    (item : Item) (resp : CloudResponse)
    (hr : jsFalsy item.region = true) (ht : jsFalsy item.vouchertype = true)
    (hk : jsFalsy item.idempotencyKey = false)
    (hmiss : ledgerLookup db (itemKey item) = none)
    (hc : cloud (sentPayload db item) = Except.ok resp)
    (hyes : respOk resp = true) :
    effRegion item = "nepal" ∧ effVoucherType item = "Sales" ∧
    (processItem cloud db item).2.ok = true ∧
    (processItem cloud db item).2.voucherno
      = some (formatVoucherNo (currentNo db "nepal" "Sales" + 1)) ∧
    currentNo (processItem cloud db item).1 "nepal" "Sales"
      = currentNo db "nepal" "Sales" + 1 := by
  have hR : effRegion item = "nepal" := jsOr_of_falsy item.region "nepal" hr
  have hT : effVoucherType item = "Sales" :=
    jsOr_of_falsy item.vouchertype "Sales" ht
  obtain ⟨db2, hcom, hp⟩ :=
    processItem_alloc_accept cloud db item resp hk hmiss hc hyes
  have hinv := commitNumber_ok_inv _ _ _ _ _ _ _ hcom
  refine ⟨hR, hT, ?_, ?_, ?_⟩
  · rw [hp]
  · rw [hp]
    simp only [hR, hT]
    exact congrArg some (getCandidateNumber_formatted db "nepal" "Sales")
  · rw [hp]
    have h1 := hinv.1
    rw [hR, hT] at h1
    have h2 := getCandidateNumber_next db (effRegion item) (effVoucherType item)
    rw [hR, hT] at h2
    simpa [h2] using h1

/-- Witness for C10: `item1` carries neither `region` nor `vouchertype`
and is accepted by `cloudUp` against the empty database. -/
theorem default_region_and_vouchertype_witness :
    effRegion item1 = "nepal" ∧ effVoucherType item1 = "Sales" ∧
    (processItem cloudUp db0 item1).2.ok = true ∧
    (processItem cloudUp db0 item1).2.voucherno
      = some (formatVoucherNo (currentNo db0 "nepal" "Sales" + 1)) ∧
    currentNo (processItem cloudUp db0 item1).1 "nepal" "Sales"
      = currentNo db0 "nepal" "Sales" + 1 :=
  default_region_and_vouchertype cloudUp db0 item1
    ⟨true, some (JsonScalar.str "101"), some "Created"⟩
    (by decide) (by decide) (by decide) (by decide) (by decide) (by decide)

end TallyHelper
